import Mathlib

set_option linter.unusedVariables false
set_option linter.unreachableTactic false
set_option linter.unusedTactic false

/-
Shallow embedding of the Kerr geodesic orbital-mechanics engine of
FastEMRIWaveforms (src/Utility.cc and src/ode_base_example.cc).

Modelling conventions:
* IEEE doubles are modelled as real numbers (ℝ); `sqrt` is `Real.sqrt`,
  the C `pow` with a fractional literal exponent is `Real.rpow`, and
  `pow` with an integer literal exponent is the monoid power (they agree
  on the reals produced by the program).
* The GSL complete elliptic integral routines (gsl_sf_ellint_Kcomp_e,
  gsl_sf_ellint_Ecomp_e, gsl_sf_ellint_Pcomp_e) are external library
  code, not part of this repository; they are abstracted as an oracle
  structure `Gsl`.  The wrappers EllipticK / EllipticE / EllipticPi of
  Utility.cc (which take the squared modulus and pass its square root,
  negating the characteristic of the third kind) are embedded on top of
  that oracle.  The failure channel of the wrappers (throw on non-zero
  GSL status) is not modelled: every claim below concerns the success
  path.
* The GSL Brent root solver used by `solver` is likewise external; where
  a claim only concerns which solves are issued and with which brackets
  (C5, C7) the whole bracketed solve is abstracted as an oracle
  `(ℝ → ℝ) → ℝ → ℝ → ℝ` (objective, lower bracket, upper bracket).  The
  internal iteration/failure policy of `solver` itself (C6) is modelled
  separately and faithfully from the loop in Utility.cc lines 372-427.
* The NaN guard of KerrGeoCoordinateFrequencies (lines 275-278) is
  vacuous over ℝ and is not modelled: deciding which inputs make the
  Mino computations produce NaN, and how NaN and infinity propagate
  through them, would need a faithful IEEE-754 semantics that this
  real-valued embedding does not provide.
-/

noncomputable section

namespace Few

/-- Oracle for the external GSL complete elliptic integrals.
`Kcomp k`, `Ecomp k` take the modulus (GSL convention), `Pcomp k n`
takes modulus and characteristic in GSL convention. -/
structure Gsl where
  Kcomp : ℝ → ℝ
  Ecomp : ℝ → ℝ
  Pcomp : ℝ → ℝ → ℝ

/-- Utility.cc EllipticK: delegates to GSL at the square root of the
squared-modulus argument (Mathematica convention reconciliation). -/
def EllipticK (G : Gsl) (k : ℝ) : ℝ := G.Kcomp (Real.sqrt k)

/-- Utility.cc EllipticE. -/
def EllipticE (G : Gsl) (k : ℝ) : ℝ := G.Ecomp (Real.sqrt k)

/-- Utility.cc EllipticPi: GSL takes (sqrt k, -n). -/
def EllipticPi (G : Gsl) (n k : ℝ) : ℝ := G.Pcomp (Real.sqrt k) (-n)

/-- Utility.cc CapitalDelta. -/
def CapitalDelta (r a : ℝ) : ℝ := r^2 - 2*r + a^2

/-- Utility.cc f. -/
def f (r a zm : ℝ) : ℝ := r^4 + a^2 * (r*(r + 2) + zm^2 * CapitalDelta r a)

/-- Utility.cc g. -/
def g (r a zm : ℝ) : ℝ := 2*a*r

/-- Utility.cc h. -/
def h (r a zm : ℝ) : ℝ := r*(r - 2) + zm^2/(1 - zm^2) * CapitalDelta r a

/-- Utility.cc d. -/
def d (r a zm : ℝ) : ℝ := (r^2 + a^2*zm^2) * CapitalDelta r a

/-- Utility.cc KerrGeoEnergy. -/
def KerrGeoEnergy (a p e x : ℝ) : ℝ :=
  let r1 := p/(1 - e)
  let r2 := p/(1 + e)
  let zm := Real.sqrt (1 - x^2)
  let Kappa   := d r1 a zm * h r2 a zm - h r1 a zm * d r2 a zm
  let Epsilon := d r1 a zm * g r2 a zm - g r1 a zm * d r2 a zm
  let Rho     := f r1 a zm * h r2 a zm - h r1 a zm * f r2 a zm
  let Eta     := f r1 a zm * g r2 a zm - g r1 a zm * f r2 a zm
  let Sigma   := g r1 a zm * h r2 a zm - h r1 a zm * g r2 a zm
  Real.sqrt ((Kappa * Rho + 2 * Epsilon * Sigma
      - x * 2 * Real.sqrt (Sigma * (Sigma * Epsilon^2 + Rho * Epsilon * Kappa - Eta * Kappa^2) / x^2))
    / (Rho^2 + 4 * Eta * Sigma))

/-- Utility.cc KerrGeoAngularMomentum. -/
def KerrGeoAngularMomentum (a p e x En : ℝ) : ℝ :=
  let r1 := p/(1 - e)
  let zm := Real.sqrt (1 - x^2)
  (-En * g r1 a zm
    + x * Real.sqrt ((-(d r1 a zm) * h r1 a zm + En^2 * ((g r1 a zm)^2 + f r1 a zm * h r1 a zm)) / x^2))
  / h r1 a zm

/-- Utility.cc KerrGeoCarterConstant. -/
def KerrGeoCarterConstant (a p e x En L : ℝ) : ℝ :=
  let zm := Real.sqrt (1 - x^2)
  zm^2 * (a^2 * (1 - En^2) + L^2/(1 - zm^2))

/-- Utility.cc KerrGeoConstantsOfMotion: computes E, then L from E, then Q
from E and L, and writes the triple to the output pointers. -/
def KerrGeoConstantsOfMotion (a p e x : ℝ) : ℝ × ℝ × ℝ :=
  let E_out := KerrGeoEnergy a p e x
  let L_out := KerrGeoAngularMomentum a p e x E_out
  let Q_out := KerrGeoCarterConstant a p e x E_out L_out
  (E_out, L_out, Q_out)

/-- Utility.cc KerrGeoRadialRoots (returns (r1, r2, r3, r4)). -/
def KerrGeoRadialRoots (a p e x En Q : ℝ) : ℝ × ℝ × ℝ × ℝ :=
  let M : ℝ := 1
  let r1 := p / (1 - e)
  let r2 := p / (1 + e)
  let AplusB := (2 * M)/(1 - En^2) - (r1 + r2)
  let AB := (a^2 * Q)/((1 - En^2) * r1 * r2)
  let r3 := (AplusB + Real.sqrt (AplusB^2 - 4 * AB))/2
  let r4 := AB/r3
  (r1, r2, r3, r4)

/-- Utility.cc KerrGeoMinoFrequencies, generic Kerr path.
Output tuple ordered as the output pointers: (Γ, Υφ, Υθ, Υr). -/
def KerrGeoMinoFrequencies (G : Gsl) (a p e x : ℝ) : ℝ × ℝ × ℝ × ℝ :=
  let M : ℝ := 1
  let En := KerrGeoEnergy a p e x
  let L := KerrGeoAngularMomentum a p e x En
  let Q := KerrGeoCarterConstant a p e x En L
  let R := KerrGeoRadialRoots a p e x En Q
  let r1 := R.1
  let r2 := R.2.1
  let r3 := R.2.2.1
  let r4 := R.2.2.2
  let zm := 1 - x^2
  let a2zp := (L^2 + a^2 * (-1 + En^2) * (-1 + zm)) / ((-1 + En^2) * (-1 + zm))
  let Epsilon0zp := -((L^2 + a^2 * (-1 + En^2) * (-1 + zm)) / (L^2 * (-1 + zm)))
  let zmOverZp := zm / ((L^2 + a^2 * (-1 + En^2) * (-1 + zm)) / (a^2 * (-1 + En^2) * (-1 + zm)))
  let kr := Real.sqrt ((r1 - r2)/(r1 - r3) * (r3 - r4)/(r2 - r4))
  let kTheta := Real.sqrt zmOverZp
  let CapitalUpsilonr := (Real.pi * Real.sqrt ((1 - En^2) * (r1 - r3) * (r2 - r4))) / (2 * EllipticK G (kr^2))
  let CapitalUpsilonTheta := (Real.pi * L * Real.sqrt Epsilon0zp) / (2 * EllipticK G (kTheta^2))
  let rp := M + Real.sqrt (M^2 - a^2)
  let rm := M - Real.sqrt (M^2 - a^2)
  let hr := (r1 - r2)/(r1 - r3)
  let hp := ((r1 - r2) * (r3 - rp))/((r1 - r3) * (r2 - rp))
  let hm := ((r1 - r2) * (r3 - rm))/((r1 - r3) * (r2 - rm))
  let CapitalUpsilonPhi := (2 * CapitalUpsilonTheta)/(Real.pi * Real.sqrt Epsilon0zp) * EllipticPi G zm (kTheta^2)
    + (2 * a * CapitalUpsilonr)/(Real.pi * (rp - rm) * Real.sqrt ((1 - En^2) * (r1 - r3) * (r2 - r4)))
      * ((2 * M * En * rp - a * L)/(r3 - rp)
           * (EllipticK G (kr^2) - (r2 - r3)/(r2 - rp) * EllipticPi G hp (kr^2))
         - (2 * M * En * rm - a * L)/(r3 - rm)
           * (EllipticK G (kr^2) - (r2 - r3)/(r2 - rm) * EllipticPi G hm (kr^2)))
  let CapitalGamma := 4 * M^2 * En
    + (2 * a2zp * En * CapitalUpsilonTheta)/(Real.pi * L * Real.sqrt Epsilon0zp)
      * (EllipticK G (kTheta^2) - EllipticE G (kTheta^2))
    + (2 * CapitalUpsilonr)/(Real.pi * Real.sqrt ((1 - En^2) * (r1 - r3) * (r2 - r4)))
      * (En/2 * ((r3 * (r1 + r2 + r3) - r1 * r2) * EllipticK G (kr^2)
                  + (r2 - r3) * (r1 + r2 + r3 + r4) * EllipticPi G hr (kr^2)
                  + (r1 - r3) * (r2 - r4) * EllipticE G (kr^2))
         + 2 * M * En * (r3 * EllipticK G (kr^2) + (r2 - r3) * EllipticPi G hr (kr^2))
         + (2 * M)/(rp - rm)
           * (((4 * M^2 * En - a * L) * rp - 2 * M * a^2 * En)/(r3 - rp)
                * (EllipticK G (kr^2) - (r2 - r3)/(r2 - rp) * EllipticPi G hp (kr^2))
              - ((4 * M^2 * En - a * L) * rm - 2 * M * a^2 * En)/(r3 - rm)
                * (EllipticK G (kr^2) - (r2 - r3)/(r2 - rm) * EllipticPi G hm (kr^2))))
  (CapitalGamma, CapitalUpsilonPhi, CapitalUpsilonTheta, CapitalUpsilonr)

/-- Utility.cc KerrEqGeoMinoFrequencies, equatorial closed-form path
(functions of a and p only; e and x are accepted but unused, as in the
source).  Output tuple ordered as the output pointers: (Γ, Υφ, Υθ, Υr). -/
def KerrEqGeoMinoFrequencies (a p e x : ℝ) : ℝ × ℝ × ℝ × ℝ :=
  let CapitalUpsilonr := Real.sqrt ((p * (-2*a^2 + 6*a*Real.sqrt p + (-5 + p)*p
      + ((a - Real.sqrt p)^2 * (a^2 - 4*a*Real.sqrt p - (-4 + p)*p))
        / |a^2 - 4*a*Real.sqrt p - (-4 + p)*p|))
    / (2*a*Real.sqrt p + (-3 + p)*p))
  let CapitalUpsilonTheta :=
    |(p ^ (0.25:ℝ) * Real.sqrt (3*a^2 - 4*a*Real.sqrt p + p^2))
      / Real.sqrt (2*a + (-3 + p)*Real.sqrt p)|
  let CapitalUpsilonPhi := p ^ (1.25:ℝ) / Real.sqrt (2*a + (-3 + p)*Real.sqrt p)
  let CapitalGamma := (p ^ (1.25:ℝ) * (a + p ^ (1.5:ℝ))) / Real.sqrt (2*a + (-3 + p)*Real.sqrt p)
  (CapitalGamma, CapitalUpsilonPhi, CapitalUpsilonTheta, CapitalUpsilonr)

/-- Utility.cc KerrGeoCoordinateFrequencies: dispatches on |x| = 1 to the
equatorial closed form, otherwise to the generic Kerr Mino frequencies,
then divides by Γ.  Output ordered as the output pointers:
(Ωφ, Ωθ, Ωr).  The NaN guard of lines 275-278 is vacuous over ℝ (see
the header note) and is therefore omitted. -/
def KerrGeoCoordinateFrequencies (G : Gsl) (a p e x : ℝ) : ℝ × ℝ × ℝ :=
  let q := if |x| = 1 then KerrEqGeoMinoFrequencies a p e x
           else KerrGeoMinoFrequencies G a p e x
  (q.2.1 / q.1, q.2.2.1 / q.1, q.2.2.2 / q.1)

/-- Utility.cc SchwarzschildGeoCoordinateFrequencies.  The four elliptic
integrals are cached; the large bracketed sum appears verbatim in both
outputs in the source and is shared here as bigSum.  Output (Ωφ, Ωr). -/
def SchwarzschildGeoCoordinateFrequencies (G : Gsl) (p e : ℝ) : ℝ × ℝ :=
  let EllipE := EllipticE G (4*e/(p - 6 + 2*e))
  let EllipK := EllipticK G (4*e/(p - 6 + 2*e))
  let EllipPi1 := EllipticPi G (16*e/(12 + 8*e - 4*e^2 - 8*p + p^2)) (4*e/(p - 6 + 2*e))
  let EllipPi2 := EllipticPi G (2*e*(p - 4)/((1 + e)*(p - 6 + 2*e))) (4*e/(p - 6 + 2*e))
  let bigSum := (-2*EllipPi2*(6 + 2*e - p)*(3 + e^2 - p)*p^2)/((-1 + e)*(1 + e)^2)
    - (EllipE*(-4 + p)*p^2*(-6 + 2*e + p))/(-1 + e^2)
    + (EllipK*p^2*(28 + 4*e^2 - 12*p + p^2))/(-1 + e^2)
    + (4*(-4 + p)*p*(2*(1 + e)*EllipK + EllipPi2*(-6 - 2*e + p)))/(1 + e)
    + 2*(-4 + p)^2*(EllipK*(-4 + p) + (EllipPi1*p*(-6 - 2*e + p))/(2 + 2*e - p))
  let OmegaPhi := (2*p^(1.5:ℝ)) / (Real.sqrt (-4*e^2 + (-2 + p)^2) * (8 + bigSum / (EllipK*(-4 + p)^2)))
  let OmegaR := (p*Real.sqrt ((-6 + 2*e + p)/(-4*e^2 + (-2 + p)^2))*Real.pi)
    / (8*EllipK + bigSum/(-4 + p)^2)
  (OmegaPhi, OmegaR)

/-- Loop body of Utility.cc KerrGeoCoordinateFrequenciesVectorized at one
index: nonzero spin dispatches to the scalar routine, zero spin to the
Schwarzschild fast path with Ωθ set to Ωφ. -/
def KerrGeoCoordinateFrequenciesVectorizedEntry (G : Gsl) (a p e x : ℝ) : ℝ × ℝ × ℝ :=
  if a ≠ 0 then KerrGeoCoordinateFrequencies G a p e x
  else
    let S := SchwarzschildGeoCoordinateFrequencies G p e
    (S.1, S.1, S.2)

/-- Utility.cc KerrGeoCoordinateFrequenciesVectorized over parallel input
arrays, modelled as a list of (a, p, e, x) tuples; the output array holds
(Ωφ, Ωθ, Ωr) at each index. -/
def KerrGeoCoordinateFrequenciesVectorized (G : Gsl) (inp : List (ℝ × ℝ × ℝ × ℝ)) :
    List (ℝ × ℝ × ℝ) :=
  inp.map (fun q => KerrGeoCoordinateFrequenciesVectorizedEntry G q.1 q.2.1 q.2.2.1 q.2.2.2)

/-! Separatrix solver (Utility.cc lines 329-494). -/

/-- Utility.cc separatrix_polynomial_full, as a function of p with the
(a, e, x) parameters of the params_holder. -/
def separatrix_polynomial_full (a e x p : ℝ) : ℝ :=
  -4*(3 + e)*p^11 + p^12
  + a^12*(-1 + e)^4*(1 + e)^8*(-1 + x)^4*(1 + x)^4
  - 4*a^10*(-3 + e)*(-1 + e)^3*(1 + e)^7*p*(-1 + x^2)^4
  - 4*a^8*(-1 + e)*(1 + e)^5*p^3*(-1 + x)^3*(1 + x)^3
    *(7 - 7*x^2 - e^2*(-13 + x^2) + e^3*(-5 + x^2) + 7*e*(-1 + x^2))
  + 8*a^6*(-1 + e)*(1 + e)^3*p^5*(-1 + x^2)^2
    *(3 + e + 12*x^2 + 4*e*x^2 + e^3*(-5 + 2*x^2) + e^2*(1 + 2*x^2))
  - 8*a^4*(1 + e)^2*p^7*(-1 + x)*(1 + x)
    *(-3 + e + 15*x^2 - 5*e*x^2 + e^3*(-5 + 3*x^2) + e^2*(-1 + 3*x^2))
  + 4*a^2*p^9*(-7 - 7*e + e^3*(-5 + 4*x^2) + e^2*(-13 + 12*x^2))
  + 2*a^8*(-1 + e)^2*(1 + e)^6*p^2*(-1 + x^2)^3
    *(2*(-3 + e)^2*(-1 + x^2) + a^2*(e^2*(-3 + x^2) - 3*(1 + x^2) + 2*e*(1 + x^2)))
  - 2*p^10*(-2*(3 + e)^2 + a^2*(-3 + 6*x^2 + e^2*(-3 + 2*x^2) + e*(-2 + 4*x^2)))
  + a^6*(1 + e)^4*p^4*(-1 + x^2)^2
    *(-16*(-1 + e)^2*(-3 - 2*e + e^2)*(-1 + x^2)
      + a^2*(15 + 6*x^2 + 9*x^4 + e^2*(26 + 20*x^2 - 2*x^4)
             + e^4*(15 - 10*x^2 + x^4) + 4*e^3*(-5 - 2*x^2 + x^4)
             - 4*e*(5 + 2*x^2 + 3*x^4)))
  - 4*a^4*(1 + e)^2*p^6*(-1 + x)*(1 + x)
    *(-2*(11 - 14*e^2 + 3*e^4)*(-1 + x^2)
      + a^2*(5 - 5*x^2 - 9*x^4 + 4*e^3*x^2*(-2 + x^2)
             + e^4*(5 - 5*x^2 + x^4) + e^2*(6 - 6*x^2 + 4*x^4)))
  + a^2*p^8*(-16*(1 + e)^2*(-3 + 2*e + e^2)*(-1 + x^2)
      + a^2*(15 - 36*x^2 + 30*x^4 + e^4*(15 - 20*x^2 + 6*x^4)
             + 4*e^3*(5 - 12*x^2 + 6*x^4) + 4*e*(5 - 12*x^2 + 10*x^4)
             + e^2*(26 - 72*x^2 + 44*x^4)))

/-- Utility.cc separatrix_polynomial_polar (x is read from the params but
unused in the formula). -/
def separatrix_polynomial_polar (a e x p : ℝ) : ℝ :=
  a^6*(-1 + e)^2*(1 + e)^4 + p^5*(-6 - 2*e + p)
  + a^2*p^3*(-4*(-1 + e)*(1 + e)^2 + (3 + e*(2 + 3*e))*p)
  - a^4*(1 + e)^2*p*(6 + 2*e^3 + 2*e*(-1 + p) - 3*p - 3*e^2*(2 + p))

/-- Utility.cc separatrix_polynomial_equat. -/
def separatrix_polynomial_equat (a e x p : ℝ) : ℝ :=
  a^4*(-3 - 2*e + e^2)^2 + p^2*(-6 - 2*e + p)^2
  - 2*a^2*(1 + e)*p*(14 + 2*e^2 + 3*p - e*p)

/-- A bracketed root solve, abstracted: given the objective and the lower
and upper bracket, the external GSL Brent solver returns a root estimate.
Used where a claim concerns only which solves get issued (C5, C7). -/
def BracketSolve : Type := (ℝ → ℝ) → ℝ → ℝ → ℝ

/-- Utility.cc get_separatrix, with the bracketed solves abstracted as an
oracle.  Branch structure as in the source: closed form 6 + 2e at a = 0;
the prograde/retrograde ISCO closed form for circular equatorial orbits;
otherwise the staged polar / equatorial / full polynomial solves. -/
def get_separatrix (solve : BracketSolve) (a e x : ℝ) : ℝ :=
  if a = 0 then 6 + 2 * e
  else if e = 0 ∧ |x| = 1 then
    let z1 := 1 + (1 - a^2) ^ ((1:ℝ)/3) * ((1 + a) ^ ((1:ℝ)/3) + (1 - a) ^ ((1:ℝ)/3))
    let z2 := Real.sqrt (3 * a^2 + z1^2)
    let sign : ℝ := if x > 0 then -1 else 1
    3 + z2 + sign * Real.sqrt ((3 - z1) * (3 + z1 + 2 * z2))
  else
    let polar_p_sep := solve (separatrix_polynomial_polar a e x)
      (1 + Real.sqrt 3 + Real.sqrt (3 + 2 * Real.sqrt 3)) 8
    if x = 0 then polar_p_sep
    else if x > 0 then
      let equat_p_sep := solve (separatrix_polynomial_equat a e x) (1 + e) (6 + 2 * e)
      solve (separatrix_polynomial_full a e x) equat_p_sep polar_p_sep
    else
      solve (separatrix_polynomial_full a e x) polar_p_sep 12

/-! Internal iteration/failure policy of Utility.cc solver (lines
372-427), claim C6.  The GSL machinery is abstracted as an oracle:
`setStatus` is the status code returned by gsl_root_fsolver_set (nonzero
when, e.g., the initial interval does not straddle a sign change; the
source discards this value), `root i` is the Brent estimate after i
iterations, and `testStatus i` is the status gsl_root_test_interval
returns for the bracket after i iterations (GSL_SUCCESS = 0 on meeting
the relative tolerance 1e-3, GSL_CONTINUE = -2 otherwise, any other
value signalling an error).  The iterate statuses themselves are
overwritten by the test status in the source loop, so they do not appear. -/

/-- Oracle for one GSL Brent solve as consumed by Utility.cc solver. -/
structure GslBrent where
  setStatus : ℤ
  root : ℕ → ℝ
  testStatus : ℕ → ℤ

/-- The do-while loop of solver: starting from iteration i, keep
iterating while the test status is GSL_CONTINUE (-2) and fewer than
max_iter = 1000 iterations have run; returns the iteration count at
exit.  Structurally recursive on the remaining fuel. -/
def solverLoop (t : ℕ → ℤ) : ℕ → ℕ → ℕ
  | 0, i => i
  | fuel + 1, i => if t i = -2 ∧ i < 1000 then solverLoop t fuel (i + 1) else i

/-- Iteration count at which the solver loop exits (the loop body runs at
least once, so counting starts at 1). -/
def solverExitIter (t : ℕ → ℤ) : ℕ := solverLoop t 1000 1

/-- Utility.cc solver, post-loop policy: on a non-success final status,
iteration exhaustion prints a warning and still returns the current
estimate (flag true); any other non-success status throws
invalid_argument.  On success the estimate is returned (flag false).
The Boolean records whether the warning diagnostic was emitted.  Note
that `setStatus` is never consulted: the source calls
gsl_set_error_handler_off and discards the return value of
gsl_root_fsolver_set. -/
def solver (O : GslBrent) : Except Unit (Bool × ℝ) :=
  let iter := solverExitIter O.testStatus
  let status := O.testStatus iter
  let r := O.root iter
  if status ≠ 0 then
    if iter = 1000 then .ok (true, r)
    else .error ()
  else .ok (false, r)

/-! Inclination mapper (Utility.cc lines 509-547). -/

/-- Utility.cc Y_to_xI_eq: the objective handed to the bracketed solver,
recomputing (E, L, Q) through KerrGeoConstantsOfMotion at the trial x. -/
def Y_to_xI_eq (a p e Y x : ℝ) : ℝ :=
  let c := KerrGeoConstantsOfMotion a p e x
  let L := c.2.1
  let Q := c.2.2
  let Y_ := L / Real.sqrt (L^2 + Q)
  Y - Y_

/-- Utility.cc YLIM. -/
def YLIM : ℝ := 0.998

/-- Utility.cc Y_to_xI: past |Y| > YLIM the input is returned unchanged;
otherwise the bracket [Y - 0.15, Y + 0.15] is clamped to [-YLIM, YLIM]
and the solve for Y_to_xI_eq is issued. -/
def Y_to_xI (solve : BracketSolve) (a p e Y : ℝ) : ℝ :=
  if |Y| > YLIM then Y
  else
    let x_lo0 := Y - 0.15
    let x_hi0 := Y + 0.15
    let x_lo := if x_lo0 > -YLIM then x_lo0 else -YLIM
    let x_hi := if x_hi0 < YLIM then x_hi0 else YLIM
    solve (fun x => Y_to_xI_eq a p e Y x) x_lo x_hi

/-! Input validation (Utility.cc lines 17-30). -/

/-- Utility.cc sanity_check.  The first component is the returned int;
the second records whether the diagnostic printf ran.  The early returns
fire without touching res; res stays 0, so the printf (guarded by
res == 1; the throw beneath it is commented out in the source) never
runs. -/
def sanity_check (a p e Y : ℝ) : ℤ × Bool :=
  let res : ℤ := 0
  if p < 0 then (1, false)
  else if e > 1 ∨ e < 0 then (1, false)
  else if Y > 1 ∨ Y < -1 then (1, false)
  else if a > 1 ∨ a < 0 then (1, false)
  else (res, res == 1)

/-! ODE layer (ode_base_example.cc), claim C9. -/

/-- Result of a deriv_func call: either the early return that zeroes
(pdot, edot, xdot) before any frequency computation, or the computed
derivatives together with the frequencies written through the output
pointers. -/
inductive DerivOut where
  | zeroed : DerivOut
  | computed (pdot edot xdot OmegaPhi OmegaTheta OmegaR : ℝ) : DerivOut

/-- ode_base_example.cc SchwarzEccFlux::deriv_func.  The two flux
interpolants (built from the file-loaded flux table, external data) are
abstracted as oracles EdotI and LdotI. -/
def SchwarzEccFlux_deriv_func (G : Gsl) (EdotI LdotI : ℝ → ℝ → ℝ)
    (epsilon a p e x : ℝ) : DerivOut :=
  if 6 + 2 * e > p then .zeroed
  else
    let S := SchwarzschildGeoCoordinateFrequencies G p e
    let OmegaPhi := S.1
    let OmegaR := S.2
    let OmegaTheta := OmegaPhi
    let y1 := Real.log (p - 2*e - 2.1)
    let yPN := OmegaPhi ^ ((2:ℝ)/3)
    let EdotPN := (96 + 292*e^2 + 37*e^4)/(15*(1 - e^2)^(3.5:ℝ)) * yPN^5
    let LdotPN := (4*(8 + 7*e^2))/(5*(-1 + e^2)^2) * yPN^((7:ℝ)/2)
    let Edot := -epsilon*(EdotI y1 e * yPN^6 + EdotPN)
    let Ldot := -epsilon*(LdotI y1 e * yPN^((9:ℝ)/2) + LdotPN)
    let pdot := (-2*(Edot*Real.sqrt ((4*e^2 - (-2 + p)^2)/(3 + e^2 - p))*(3 + e^2 - p)*p^(1.5:ℝ)
        + Ldot*(-4 + p)^2*Real.sqrt (-3 - e^2 + p)))/(4*e^2 - (-6 + p)^2)
    let edot := if e > 0 then
        -((Edot*Real.sqrt ((4*e^2 - (-2 + p)^2)/(3 + e^2 - p))*p^(1.5:ℝ)
              *(18 + 2*e^4 - 3*e^2*(-4 + p) - 9*p + p^2)
            + (-1 + e^2)*Ldot*Real.sqrt (-3 - e^2 + p)*(12 + 4*e^2 - 8*p + p^2))
          /(e*(4*e^2 - (-6 + p)^2)*p))
      else 0
    let xdot : ℝ := 0
    .computed pdot edot xdot OmegaPhi OmegaTheta OmegaR

/-- ode_base_example.cc KerrEccentricEquatorial::deriv_func.
KerrGeoEquatorialCoordinateFrequencies is declared in the headers but its
definition is outside the shown sources, so the frequency triple
(Ωφ, Ωθ, Ωr) it writes is abstracted as the oracle freqs; the two tensor
interpolants (file-loaded coefficients) are the oracles pdotI and edotI.
The isnan(r) diagnostic throw is vacuous over ℝ and not modelled. -/
def KerrEccentricEquatorial_deriv_func (solve : BracketSolve)
    (freqs : ℝ → ℝ → ℝ → ℝ → ℝ × ℝ × ℝ) (pdotI edotI : ℝ → ℝ → ℝ → ℝ)
    (epsilon a p e x : ℝ) : DerivOut :=
  let p_sep := get_separatrix solve a e x
  if e < 0 ∨ p < p_sep then .zeroed
  else
    let F := freqs a p e x
    let OmegaPhi := F.1
    let OmegaTheta := F.2.1
    let OmegaR := F.2.2
    let Omega_phi_sep_circ := 1 / (a + (p_sep/(1 + e)) ^ (1.5:ℝ))
    let r := (OmegaPhi / Omega_phi_sep_circ) ^ ((2:ℝ)/3) * (1 + e)
    let risco := get_separatrix solve a 0 x
    let u := Real.log ((p - p_sep + 4 - 0.05)/4)
    let w := Real.sqrt e
    let pdot_out := pdotI a u w
      * ((8*(1 - e^2)^(1.5:ℝ)*(8 + 7*e^2))/(5*p*((p - risco)^2 - (-risco + p_sep)^2)))
    let edot_out := edotI a u w
      * (((1 - e^2)^(1.5:ℝ)*(304 + 121*e^2))/(15*p^2*((p - risco)^2 - (-risco + p_sep)^2)))
    let pdot := epsilon * pdot_out
    let edot := if e > 1e-6 then epsilon * edot_out else 0
    let xdot : ℝ := 0
    .computed pdot edot xdot OmegaPhi OmegaTheta OmegaR

/-! Concrete oracle instances used by counterexamples and witnesses. -/

/-- The circular prograde (e = 0, x = 1) closed-form branch of
get_separatrix (Utility.cc lines 438-457 with sign = -1), written out as
a standalone function of the spin for the limit analysis of C4. -/
def iscoPrograde (a : ℝ) : ℝ :=
  let z1 := 1 + (1 - a^2) ^ ((1:ℝ)/3) * ((1 + a) ^ ((1:ℝ)/3) + (1 - a) ^ ((1:ℝ)/3))
  let z2 := Real.sqrt (3 * a^2 + z1^2)
  3 + z2 + (-1) * Real.sqrt ((3 - z1) * (3 + z1 + 2 * z2))

/-- A concrete elliptic-integral oracle: first and second kind constantly
1, third kind constantly 2. -/
def Gc : Gsl := ⟨fun _ => 1, fun _ => 1, fun _ _ => 2⟩

/-- A concrete bracketed-solve oracle returning the lower bracket. -/
def solveLo : BracketSolve := fun _ lo _ => lo

/-- A concrete GSL Brent oracle: the setup reports a non-bracketing
interval (GSL_EINVAL = 4), yet the interval test succeeds at once. -/
def brentBadBracket : GslBrent := ⟨4, fun _ => 2, fun _ => 0⟩

/-- A concrete GSL Brent oracle that never meets tolerance: the interval
test returns GSL_CONTINUE (-2) at every iteration. -/
def brentNeverConverges : GslBrent := ⟨0, fun i => (i : ℝ), fun _ => -2⟩

/-! Claim theorems. -/

/-- C10: sanity_check returns 1 exactly when p < 0, or e > 1, or e < 0,
or Y > 1, or Y < -1, or a > 1, or a < 0, and 0 otherwise; it accepts the
boundary value e = 1; and its diagnostic branch never runs for any
input. -/
theorem C10_sanity_check (a p e Y : ℝ) :
    ((sanity_check a p e Y).1 = 1 ↔
      (p < 0 ∨ e > 1 ∨ e < 0 ∨ Y > 1 ∨ Y < -1 ∨ a > 1 ∨ a < 0))
    ∧ ((sanity_check a p e Y).1 = 0 ↔
      ¬(p < 0 ∨ e > 1 ∨ e < 0 ∨ Y > 1 ∨ Y < -1 ∨ a > 1 ∨ a < 0))
    ∧ (sanity_check a p e Y).2 = false
    ∧ (sanity_check (1/2) 10 1 0).1 = 0 := by
  refine ⟨?_, ?_, ?_, by norm_num [sanity_check]⟩ <;>
    · unfold sanity_check
      split_ifs with h1 h2 h3 h4 <;> simp_all <;>
        first
        | tauto
        | (constructor <;> intros <;> (try casesm* _ ∨ _) <;> first | tauto | linarith)
        | (intros; (try casesm* _ ∨ _) <;> first | tauto | linarith)

/-- C8: KerrGeoConstantsOfMotion evaluates E first, then L by the closed
form consuming E, then the Carter constant Q = zm^2 (a^2 (1 - E^2) +
L^2/(1 - zm^2)) with zm = sqrt(1 - x^2) consuming E and L; the triple is
a pure function of (a, p, e, x). -/
theorem C8_constants_of_motion (a p e x : ℝ) :
    KerrGeoConstantsOfMotion a p e x =
      (KerrGeoEnergy a p e x,
       KerrGeoAngularMomentum a p e x (KerrGeoEnergy a p e x),
       KerrGeoCarterConstant a p e x (KerrGeoEnergy a p e x)
         (KerrGeoAngularMomentum a p e x (KerrGeoEnergy a p e x)))
    ∧ (∀ En L : ℝ, KerrGeoCarterConstant a p e x En L =
        Real.sqrt (1 - x^2) ^ 2
          * (a^2 * (1 - En^2) + L^2 / (1 - Real.sqrt (1 - x^2) ^ 2))) :=
  ⟨rfl, fun _ _ => rfl⟩

/-- C7: Y_to_xI returns Y unchanged when |Y| > 0.998, and otherwise
returns the bracketed-solver root of x ↦ Y - L/sqrt(L^2 + Q), with L and
Q recomputed through KerrGeoConstantsOfMotion at each trial x, over the
bracket [max(Y - 0.15, -0.998), min(Y + 0.15, 0.998)]. -/
theorem C7_Y_to_xI (solve : BracketSolve) (a p e Y : ℝ) :
    (|Y| > 0.998 → Y_to_xI solve a p e Y = Y)
    ∧ (¬(|Y| > 0.998) →
        Y_to_xI solve a p e Y =
          solve (fun x =>
              Y - (KerrGeoConstantsOfMotion a p e x).2.1
                / Real.sqrt ((KerrGeoConstantsOfMotion a p e x).2.1 ^ 2
                    + (KerrGeoConstantsOfMotion a p e x).2.2))
            (max (Y - 0.15) (-0.998)) (min (Y + 0.15) 0.998)) := by
  constructor
  · intro hY
    simp only [Y_to_xI, YLIM]
    rw [if_pos hY]
  · intro hY
    simp only [Y_to_xI, YLIM]
    rw [if_neg hY]
    have hlo : (if Y - 0.15 > -(0.998:ℝ) then Y - 0.15 else -0.998)
        = max (Y - 0.15) (-0.998) := by
      split_ifs with hc
      · exact (max_eq_left (by linarith)).symm
      · exact (max_eq_right (by linarith)).symm
    have hhi : (if Y + 0.15 < (0.998:ℝ) then Y + 0.15 else 0.998)
        = min (Y + 0.15) 0.998 := by
      split_ifs with hc
      · exact (min_eq_left (by linarith)).symm
      · exact (min_eq_right (by linarith)).symm
    rw [hlo, hhi]
    rfl

/-- C7 witness: at Y = 2 the fast path applies, at Y = 0 the solve over
the clamped bracket is issued. -/
theorem C7_Y_to_xI_witness :
    |(2:ℝ)| > 0.998 ∧ Y_to_xI solveLo 0.5 10 0.1 2 = 2 := by
  refine ⟨by norm_num, ?_⟩
  exact (C7_Y_to_xI solveLo 0.5 10 0.1 2).1 (by norm_num)

/-- C5: for nonzero spin outside the circular-equatorial shortcut,
get_separatrix first solves the polar separatrix polynomial over
[1 + sqrt 3 + sqrt(3 + 2 sqrt 3), 8], returns that root for x = 0;
for x > 0 it solves the equatorial polynomial over [1 + e, 6 + 2e] and
then the full polynomial over [equat_p_sep, polar_p_sep]; for x < 0 it
solves the full polynomial over [polar_p_sep, 12]. -/
theorem C5_get_separatrix_staged (solve : BracketSolve) (a e x : ℝ)
    (ha : 0 < a) (ha1 : a ≤ 1) (hne : ¬(e = 0 ∧ |x| = 1)) :
    (x = 0 → get_separatrix solve a e x =
        solve (separatrix_polynomial_polar a e x)
          (1 + Real.sqrt 3 + Real.sqrt (3 + 2 * Real.sqrt 3)) 8)
    ∧ (x > 0 → get_separatrix solve a e x =
        solve (separatrix_polynomial_full a e x)
          (solve (separatrix_polynomial_equat a e x) (1 + e) (6 + 2 * e))
          (solve (separatrix_polynomial_polar a e x)
            (1 + Real.sqrt 3 + Real.sqrt (3 + 2 * Real.sqrt 3)) 8))
    ∧ (x < 0 → get_separatrix solve a e x =
        solve (separatrix_polynomial_full a e x)
          (solve (separatrix_polynomial_polar a e x)
            (1 + Real.sqrt 3 + Real.sqrt (3 + 2 * Real.sqrt 3)) 8)
          12) := by
  have ha0 : a ≠ 0 := ne_of_gt ha
  refine ⟨?_, ?_, ?_⟩
  · intro hx
    simp only [get_separatrix]
    rw [if_neg ha0, if_neg hne, if_pos hx]
  · intro hx
    simp only [get_separatrix]
    rw [if_neg ha0, if_neg hne, if_neg (by linarith : ¬ x = 0), if_pos hx]
  · intro hx
    simp only [get_separatrix]
    rw [if_neg ha0, if_neg hne, if_neg (by linarith : ¬ x = 0),
      if_neg (by linarith : ¬ x > 0)]

/-- C5 witness: concrete staged solve at a = 1/2, e = 1/2, x = 0. -/
theorem C5_get_separatrix_staged_witness :
    (0:ℝ) < 1/2 ∧ (1/2:ℝ) ≤ 1 ∧ ¬((1/2:ℝ) = 0 ∧ |(0:ℝ)| = 1)
    ∧ get_separatrix solveLo (1/2) (1/2) 0 =
        solveLo (separatrix_polynomial_polar (1/2) (1/2) 0)
          (1 + Real.sqrt 3 + Real.sqrt (3 + 2 * Real.sqrt 3)) 8 := by
  refine ⟨by norm_num, by norm_num, by norm_num, ?_⟩
  exact (C5_get_separatrix_staged solveLo (1/2) (1/2) 0 (by norm_num)
    (by norm_num) (by norm_num)).1 rfl

/-- The solver loop exits immediately when the first test status is not
GSL_CONTINUE. -/
theorem solverLoop_stop (t : ℕ → ℤ) (fuel i : ℕ)
    (hstop : ¬(t i = -2 ∧ i < 1000)) : solverLoop t (fuel + 1) i = i := by
  simp only [solverLoop, if_neg hstop]

/-- If every test status up to the cap is GSL_CONTINUE, the solver loop
runs to iteration 1000. -/
theorem solverLoop_exhaust (t : ℕ → ℤ) :
    ∀ fuel i, 1 ≤ i → i ≤ 1000 → 1000 ≤ i + fuel →
      (∀ j, 1 ≤ j → j ≤ 1000 → t j = -2) → solverLoop t fuel i = 1000 := by
  intro fuel
  induction fuel with
  | zero =>
    intro i h1 h2 h3 hall
    have : i = 1000 := by omega
    simpa [solverLoop] using this
  | succ n ih =>
    intro i h1 h2 h3 hall
    by_cases hi : i < 1000
    · have hcond : t i = -2 ∧ i < 1000 := ⟨hall i h1 h2, hi⟩
      simp only [solverLoop, if_pos hcond]
      exact ih (i + 1) (by omega) (by omega) (by omega) hall
    · have : i = 1000 := by omega
      subst this
      simp [solverLoop]

/-- If the statuses are GSL_CONTINUE up to iteration j < 1000 and the
status at j is not GSL_CONTINUE, the loop exits at j. -/
theorem solverLoop_first_stop (t : ℕ → ℤ) :
    ∀ fuel i j, 1 ≤ i → i ≤ j → j < 1000 → j < i + fuel →
      (∀ k, i ≤ k → k < j → t k = -2) → t j ≠ -2 → solverLoop t fuel i = j := by
  intro fuel
  induction fuel with
  | zero => intro i j h1 h2 h3 h4 hk hj; omega
  | succ n ih =>
    intro i j h1 h2 h3 h4 hk hj
    by_cases hij : i = j
    · subst hij
      exact solverLoop_stop t n i (by tauto)
    · have hilt : i < j := lt_of_le_of_ne h2 hij
      have hcond : t i = -2 ∧ i < 1000 := ⟨hk i le_rfl hilt, by omega⟩
      simp only [solverLoop, if_pos hcond]
      exact ih (i + 1) j (by omega) (by omega) h3 (by omega)
        (fun k hk1 hk2 => hk k (by omega) hk2) hj

/-- C6 counterexample: the claim that exhausting the cap soft-fails and
that any other solver failure — including an initial interval that does
not bracket a sign change — raises a fatal error, is false: the status
returned by the solver setup is discarded (the error handler is off), so
a non-bracketing initial interval whose interval test then succeeds
returns a value instead of raising. -/
theorem C6_counterexample :
    ¬ (∀ O : GslBrent,
        ((∀ i, 1 ≤ i → i ≤ 1000 → O.testStatus i = -2) →
          solver O = .ok (true, O.root 1000))
        ∧ (O.setStatus ≠ 0 → solver O = .error ())) := by
  intro hcl
  have h := (hcl brentBadBracket).2 (by norm_num [brentBadBracket])
  have hiter : solverExitIter (fun _ => (0:ℤ)) = 1 := by
    show solverLoop (fun _ => (0:ℤ)) (999 + 1) 1 = 1
    exact solverLoop_stop _ 999 1 (by norm_num)
  have h2 : solver brentBadBracket = .ok (false, 2) := by
    simp [solver, brentBadBracket, hiter]
  rw [h2] at h
  exact absurd h (by simp)

/-- C6 amended: exhausting the 1000-iteration cap without meeting
tolerance emits the diagnostic and returns the current estimate
(non-fatal); a test status that is neither success nor continue before
the cap raises the fatal error; but the setup status — which is what a
non-bracketing initial interval produces — is discarded, so it never by
itself causes a raise. -/
theorem C6_solver_policy (O : GslBrent) :
    ((∀ i, 1 ≤ i → i ≤ 1000 → O.testStatus i = -2) →
      solver O = .ok (true, O.root 1000))
    ∧ (∀ j, 1 ≤ j → j < 1000 →
        (∀ i, 1 ≤ i → i < j → O.testStatus i = -2) →
        O.testStatus j ≠ -2 → O.testStatus j ≠ 0 →
        solver O = .error ())
    ∧ (∀ s : ℤ, solver { O with setStatus := s } = solver O) := by
  refine ⟨?_, ?_, fun s => rfl⟩
  · intro hall
    have hiter : solverExitIter O.testStatus = 1000 :=
      solverLoop_exhaust O.testStatus 1000 1 (by norm_num) (by norm_num)
        (by norm_num) hall
    have hst : O.testStatus 1000 = -2 := hall 1000 (by norm_num) le_rfl
    simp [solver, solverExitIter] at hiter ⊢
    rw [hiter, hst]
    norm_num
  · intro j h1 h2 hk hj hj0
    have hiter : solverExitIter O.testStatus = j :=
      solverLoop_first_stop O.testStatus 1000 1 j (by norm_num) h1 h2
        (by omega) (fun k hk1 hk2 => hk k hk1 hk2) hj
    simp [solver, solverExitIter] at hiter ⊢
    rw [hiter]
    simp [hj0, Nat.ne_of_lt h2]

/-- C6 witness: an oracle whose interval test never succeeds exhausts the
cap and soft-returns the final estimate. -/
theorem C6_solver_policy_witness :
    solver brentNeverConverges = .ok (true, ((1000:ℕ) : ℝ)) := by
  exact (C6_solver_policy brentNeverConverges).1 (fun i h1 h2 => rfl)

/-- For nonzero spin, get_separatrix at (e, x) = (0, 1) takes the
circular prograde closed form, independently of the solver oracle. -/
theorem get_separatrix_circular_prograde (solve : BracketSolve) (a : ℝ)
    (ha : a ≠ 0) : get_separatrix solve a 0 1 = iscoPrograde a := by
  simp only [get_separatrix, iscoPrograde, if_neg ha]
  norm_num

/-- The circular prograde closed form is continuous in the spin. -/
theorem iscoPrograde_continuous : Continuous iscoPrograde := by
  have hz1 : Continuous (fun a : ℝ =>
      1 + (1 - a^2) ^ ((1:ℝ)/3) * ((1 + a) ^ ((1:ℝ)/3) + (1 - a) ^ ((1:ℝ)/3))) := by
    have hA : Continuous (fun a : ℝ => (1 - a^2) ^ ((1:ℝ)/3)) :=
      Continuous.rpow_const (by continuity) (fun _ => Or.inr (by norm_num))
    have hB : Continuous (fun a : ℝ => (1 + a) ^ ((1:ℝ)/3)) :=
      Continuous.rpow_const (by continuity) (fun _ => Or.inr (by norm_num))
    have hC : Continuous (fun a : ℝ => (1 - a) ^ ((1:ℝ)/3)) :=
      Continuous.rpow_const (by continuity) (fun _ => Or.inr (by norm_num))
    exact continuous_const.add (hA.mul (hB.add hC))
  have hz2 : Continuous (fun a : ℝ => Real.sqrt (3 * a^2
      + (1 + (1 - a^2) ^ ((1:ℝ)/3) * ((1 + a) ^ ((1:ℝ)/3) + (1 - a) ^ ((1:ℝ)/3)))^2)) :=
    ((continuous_const.mul (continuous_pow 2)).add (hz1.pow 2)).sqrt
  exact (continuous_const.add hz2).add (continuous_const.mul
    (((continuous_const.sub hz1).mul
      ((continuous_const.add hz1).add (continuous_const.mul hz2))).sqrt))

/-- The circular prograde closed form evaluates to 6 at zero spin. -/
theorem iscoPrograde_zero : iscoPrograde 0 = 6 := by
  have h9 : Real.sqrt 9 = 3 := by
    rw [show (9:ℝ) = 3^2 by norm_num]
    exact Real.sqrt_sq (by norm_num)
  simp [iscoPrograde, Real.one_rpow]
  norm_num [h9]

/-- C4: at zero spin get_separatrix returns the closed form 6 + 2e
without consulting the root solver, and the circular prograde separatrix
tends to the Schwarzschild ISCO 6 as the spin tends to 0 from above,
again for every solver oracle. -/
theorem C4_schwarzschild_separatrix :
    (∀ (solve : BracketSolve) (e x : ℝ), 0 ≤ e → e < 1 →
        get_separatrix solve 0 e x = 6 + 2 * e)
    ∧ (∀ solve : BracketSolve,
        Filter.Tendsto (fun a : ℝ => get_separatrix solve a 0 1)
          (nhdsWithin 0 (Set.Ioi 0)) (nhds 6)) := by
  constructor
  · intro solve e x he h1
    simp [get_separatrix]
  · intro solve
    have htd : Filter.Tendsto iscoPrograde (nhds 0) (nhds 6) :=
      iscoPrograde_zero ▸ iscoPrograde_continuous.tendsto 0
    have heq : iscoPrograde =ᶠ[nhdsWithin 0 (Set.Ioi 0)]
        (fun a : ℝ => get_separatrix solve a 0 1) := by
      filter_upwards [self_mem_nhdsWithin] with a ha
      exact (get_separatrix_circular_prograde solve a (ne_of_gt ha)).symm
    exact Filter.Tendsto.congr' heq (htd.mono_left nhdsWithin_le_nhds)

/-- C4 witness: concrete Schwarzschild separatrix at e = 1/2. -/
theorem C4_schwarzschild_separatrix_witness :
    (0:ℝ) ≤ 1/2 ∧ (1/2:ℝ) < 1 ∧ get_separatrix solveLo 0 (1/2) (-3) = 7 := by
  refine ⟨by norm_num, by norm_num, ?_⟩
  rw [C4_schwarzschild_separatrix.1 solveLo (1/2) (-3) (by norm_num) (by norm_num)]
  norm_num

/-- C9 counterexample: at spin 0, eccentricity 0 the separatrix is
exactly 6, yet the Schwarzschild ODE derivative function called at
p = 6 (p equal to the separatrix, hence "at or below" it) does not zero
the derivatives: it proceeds to the frequency computation. -/
theorem C9_counterexample :
    get_separatrix solveLo 0 0 1 = 6
    ∧ SchwarzEccFlux_deriv_func Gc (fun _ _ => 1) (fun _ _ => 1) 1 0 6 0 1 ≠ .zeroed := by
  constructor
  · simp [get_separatrix]
  · simp only [SchwarzEccFlux_deriv_func]
    rw [if_neg (by norm_num)]
    exact fun hc => DerivOut.noConfusion hc

/-- C9 amended: the ODE-layer derivative functions zero (pdot, edot,
xdot) and return before any frequency computation exactly when p is
strictly below the separatrix (6 + 2e for the Schwarzschild flux; the
solver separatrix, or a negative eccentricity, for the Kerr equatorial
flux); at p equal to the separatrix they proceed to compute
frequencies. -/
theorem C9_deriv_guard (G : Gsl) (EdotI LdotI : ℝ → ℝ → ℝ)
    (solve : BracketSolve) (freqs : ℝ → ℝ → ℝ → ℝ → ℝ × ℝ × ℝ)
    (pdotI edotI : ℝ → ℝ → ℝ → ℝ) (eps1 a1 p1 e1 x1 eps2 a2 p2 e2 x2 : ℝ) :
    (SchwarzEccFlux_deriv_func G EdotI LdotI eps1 a1 p1 e1 x1 = .zeroed
      ↔ 6 + 2 * e1 > p1)
    ∧ (KerrEccentricEquatorial_deriv_func solve freqs pdotI edotI eps2 a2 p2 e2 x2 = .zeroed
      ↔ (e2 < 0 ∨ p2 < get_separatrix solve a2 e2 x2)) := by
  constructor
  · by_cases hcond : 6 + 2 * e1 > p1
    · simp only [SchwarzEccFlux_deriv_func, if_pos hcond]
      exact iff_of_true trivial hcond
    · simp only [SchwarzEccFlux_deriv_func, if_neg hcond]
      exact iff_of_false (fun hc => DerivOut.noConfusion hc) hcond
  · by_cases hcond : e2 < 0 ∨ p2 < get_separatrix solve a2 e2 x2
    · simp only [KerrEccentricEquatorial_deriv_func, if_pos hcond]
      exact iff_of_true trivial hcond
    · simp only [KerrEccentricEquatorial_deriv_func, if_neg hcond]
      exact iff_of_false (fun hc => DerivOut.noConfusion hc) hcond

/-- Evaluation helper: sqrt 16 = 4. -/
theorem sqrt_sixteen : Real.sqrt 16 = 4 := by
  rw [show (16:ℝ) = 4^2 by norm_num]
  exact Real.sqrt_sq (by norm_num)

/-- Evaluation helper: sqrt 256 = 16. -/
theorem sqrt_twofiftysix : Real.sqrt 256 = 16 := by
  rw [show (256:ℝ) = 16^2 by norm_num]
  exact Real.sqrt_sq (by norm_num)

/-- Evaluation helper: 16 to the 0.25 is 2. -/
theorem rpow_sixteen_qtr : (16:ℝ) ^ (0.25:ℝ) = 2 := by
  rw [show (0.25:ℝ) = 1/4 by norm_num, show (16:ℝ) = 2^(4:ℕ) by norm_num]
  rw [← Real.rpow_natCast 2 4, ← Real.rpow_mul (by norm_num : (0:ℝ) ≤ 2)]
  rw [show ((4:ℕ):ℝ) * (1/4) = ((1:ℕ):ℝ) by push_cast; ring, Real.rpow_natCast]
  norm_num

/-- Evaluation helper: 16 to the 1.25 is 32. -/
theorem rpow_sixteen_five_qtr : (16:ℝ) ^ (1.25:ℝ) = 32 := by
  rw [show (1.25:ℝ) = 5/4 by norm_num, show (16:ℝ) = 2^(4:ℕ) by norm_num]
  rw [← Real.rpow_natCast 2 4, ← Real.rpow_mul (by norm_num : (0:ℝ) ≤ 2)]
  rw [show ((4:ℕ):ℝ) * (5/4) = ((5:ℕ):ℝ) by push_cast; ring, Real.rpow_natCast]
  norm_num

/-- Evaluation helper: 16 to the 1.5 is 64. -/
theorem rpow_sixteen_three_half : (16:ℝ) ^ (1.5:ℝ) = 64 := by
  rw [show (1.5:ℝ) = 3/2 by norm_num, show (16:ℝ) = 2^(4:ℕ) by norm_num]
  rw [← Real.rpow_natCast 2 4, ← Real.rpow_mul (by norm_num : (0:ℝ) ≤ 2)]
  rw [show ((4:ℕ):ℝ) * (3/2) = ((6:ℕ):ℝ) by push_cast; ring, Real.rpow_natCast]
  norm_num

/-- C3 counterexample: at spin a = 1 (circular equatorial, p = 16) the
equatorial path gives Ωθ = sqrt 243 / 1040 but Ωφ = 16/1040 = 1/65, and
sqrt 243 < 16, so Ωθ ≠ Ωφ: the claimed equality fails for nonzero
spin. -/
theorem C3_counterexample :
    (KerrGeoCoordinateFrequencies Gc 1 16 0 1).2.1
      ≠ (KerrGeoCoordinateFrequencies Gc 1 16 0 1).1 := by
  have h54pos : (0:ℝ) < Real.sqrt 54 := Real.sqrt_pos.mpr (by norm_num)
  have h54 : Real.sqrt 54 ≠ 0 := ne_of_gt h54pos
  have h243nonneg : (0:ℝ) ≤ Real.sqrt 243 := Real.sqrt_nonneg _
  have h243lt : Real.sqrt 243 < 16 := by
    have := Real.sqrt_lt_sqrt (by norm_num : (0:ℝ) ≤ 243) (by norm_num : (243:ℝ) < 256)
    rwa [sqrt_twofiftysix] at this
  intro heq
  simp only [KerrGeoCoordinateFrequencies, KerrEqGeoMinoFrequencies,
    if_pos (abs_one : |(1:ℝ)| = 1)] at heq
  rw [sqrt_sixteen] at heq
  rw [show (3:ℝ)*1^2 - 4*1*4 + 16^2 = 243 by norm_num,
    show (2:ℝ)*1 + (-3 + 16)*4 = 54 by norm_num,
    rpow_sixteen_qtr, rpow_sixteen_five_qtr, rpow_sixteen_three_half] at heq
  rw [abs_div, abs_of_nonneg (by positivity : (0:ℝ) ≤ 2 * Real.sqrt 243),
    abs_of_nonneg (Real.sqrt_nonneg (54:ℝ))] at heq
  have hexp : ∀ A B : ℝ, B ≠ 0 → (A / Real.sqrt 54) / (B / Real.sqrt 54) = A / B := by
    intro A B hB
    field_simp
  rw [hexp _ _ (by norm_num), hexp _ _ (by norm_num)] at heq
  rw [div_eq_div_iff (by norm_num) (by norm_num)] at heq
  nlinarith [heq, h243lt]

/-- C3 amended: for circular equatorial orbits the equality Ωθ = Ωφ
holds exactly at zero spin (the equatorial closed-form path gives
Υθ = |p^(1/4) sqrt(p^2)/s| = p^(5/4)/s = Υφ at a = 0); for nonzero spin
the two coordinate frequencies differ in general (see the
counterexample at a = 1). -/
theorem C3_circular_equatorial (G : Gsl) (p e x : ℝ)
    (hp : 0 ≤ p) (hx : |x| = 1) :
    (KerrGeoCoordinateFrequencies G 0 p e x).2.1
      = (KerrGeoCoordinateFrequencies G 0 p e x).1 := by
  simp only [KerrGeoCoordinateFrequencies, KerrEqGeoMinoFrequencies, if_pos hx]
  have h1 : (3:ℝ)*0^2 - 4*0*Real.sqrt p + p^2 = p^2 := by ring
  rw [h1, Real.sqrt_sq hp]
  have h3 : p ^ (0.25:ℝ) * p = p ^ (1.25:ℝ) := by
    rcases eq_or_lt_of_le hp with hp0 | hp0
    · rw [← hp0]
      rw [Real.zero_rpow (by norm_num : (0.25:ℝ) ≠ 0),
        Real.zero_rpow (by norm_num : (1.25:ℝ) ≠ 0)]
      ring
    · calc p ^ (0.25:ℝ) * p = p ^ (0.25:ℝ) * p ^ (1:ℝ) := by rw [Real.rpow_one]
        _ = p ^ (0.25 + 1 : ℝ) := (Real.rpow_add hp0 _ _).symm
        _ = p ^ (1.25:ℝ) := by norm_num
  rw [abs_div, abs_of_nonneg (mul_nonneg (Real.rpow_nonneg hp _) hp),
    abs_of_nonneg (Real.sqrt_nonneg _), h3]

/-- C3 witness: the zero-spin equality at p = 16, e = 0, x = 1. -/
theorem C3_circular_equatorial_witness :
    (0:ℝ) ≤ 16 ∧ |(1:ℝ)| = 1
    ∧ (KerrGeoCoordinateFrequencies Gc 0 16 0 1).2.1
        = (KerrGeoCoordinateFrequencies Gc 0 16 0 1).1 :=
  ⟨by norm_num, abs_one, C3_circular_equatorial Gc 16 0 1 (by norm_num) abs_one⟩

/-- Division by the same nonzero factor cancels across a quotient. -/
theorem div_div_same_cancel (s A B : ℝ) (hs : s ≠ 0) (hB : B ≠ 0) :
    (A / s) / (B / s) = A / B := by
  field_simp

/-- Evaluation of the Schwarzschild fast path at the constant oracle Gc
and (p, e) = (16, 0). -/
theorem schwarzschild_Gc_at_16 :
    (SchwarzschildGeoCoordinateFrequencies Gc 16 0).1 = 9/1061 := by
  simp only [SchwarzschildGeoCoordinateFrequencies, EllipticK, EllipticE, EllipticPi, Gc]
  rw [rpow_sixteen_three_half]
  rw [show (-4*(0:ℝ)^2 + (-2+16)^2 : ℝ) = 196 by norm_num]
  rw [show Real.sqrt 196 = 14 by
    rw [show (196:ℝ) = 14^2 by norm_num]; exact Real.sqrt_sq (by norm_num)]
  norm_num

/-- Evaluation of the scalar frequency engine at the constant oracle Gc
and (a, p, e, x) = (0, 16, 0, 1): the equatorial closed-form path with
zero spin gives Ωφ = 1/64. -/
theorem scalar_Gc_at_0_16 :
    (KerrGeoCoordinateFrequencies Gc 0 16 0 1).1 = 1/64 := by
  have h52 : Real.sqrt 52 ≠ 0 := ne_of_gt (Real.sqrt_pos.mpr (by norm_num))
  simp only [KerrGeoCoordinateFrequencies, KerrEqGeoMinoFrequencies,
    if_pos (abs_one : |(1:ℝ)| = 1)]
  rw [sqrt_sixteen, rpow_sixteen_five_qtr, rpow_sixteen_three_half]
  rw [show (2:ℝ)*0 + (-3 + 16)*4 = 52 by norm_num]
  rw [div_div_same_cancel _ _ _ h52 (by norm_num)]
  norm_num

/-- C1 counterexample: on the single-element input (a, p, e, x) =
(0, 16, 0, 1) the vectorized driver takes the Schwarzschild fast path,
whose Ωφ is a different composition of the elliptic-integral primitives
than the scalar engine computes: at the concrete oracle Gc the
vectorized output at index 0 differs from the scalar output. -/
theorem C1_counterexample :
    (KerrGeoCoordinateFrequenciesVectorized Gc [(0, 16, 0, 1)]).get
        ⟨0, by norm_num [KerrGeoCoordinateFrequenciesVectorized]⟩
      ≠ KerrGeoCoordinateFrequencies Gc 0 16 0 1 := by
  intro heq
  have hvec : (KerrGeoCoordinateFrequenciesVectorized Gc [(0, 16, 0, 1)]).get
        ⟨0, by norm_num [KerrGeoCoordinateFrequenciesVectorized]⟩
      = ((SchwarzschildGeoCoordinateFrequencies Gc 16 0).1,
         (SchwarzschildGeoCoordinateFrequencies Gc 16 0).1,
         (SchwarzschildGeoCoordinateFrequencies Gc 16 0).2) := by
    simp [KerrGeoCoordinateFrequenciesVectorized,
      KerrGeoCoordinateFrequenciesVectorizedEntry]
  rw [hvec] at heq
  have h1 := congrArg Prod.fst heq
  simp only at h1
  rw [schwarzschild_Gc_at_16, scalar_Gc_at_0_16] at h1
  norm_num at h1

/-- C1 amended: the vectorized driver writes at index i exactly the
scalar engine output on input i whenever a_i is nonzero; when a_i = 0 it
instead writes the Schwarzschild fast-path pair with Ωθ set to Ωφ, which
is a different composition of the elliptic-integral primitives and does
not coincide exactly with the scalar output in general. -/
theorem C1_vectorized_scalar (G : Gsl) (inp : List (ℝ × ℝ × ℝ × ℝ)) (i : ℕ)
    (hi : i < inp.length) :
    ((inp.get ⟨i, hi⟩).1 ≠ 0 →
      (KerrGeoCoordinateFrequenciesVectorized G inp).get
          ⟨i, by simpa [KerrGeoCoordinateFrequenciesVectorized] using hi⟩
        = KerrGeoCoordinateFrequencies G (inp.get ⟨i, hi⟩).1 (inp.get ⟨i, hi⟩).2.1
            (inp.get ⟨i, hi⟩).2.2.1 (inp.get ⟨i, hi⟩).2.2.2)
    ∧ ((inp.get ⟨i, hi⟩).1 = 0 →
      (KerrGeoCoordinateFrequenciesVectorized G inp).get
          ⟨i, by simpa [KerrGeoCoordinateFrequenciesVectorized] using hi⟩
        = ((SchwarzschildGeoCoordinateFrequencies G
              (inp.get ⟨i, hi⟩).2.1 (inp.get ⟨i, hi⟩).2.2.1).1,
           (SchwarzschildGeoCoordinateFrequencies G
              (inp.get ⟨i, hi⟩).2.1 (inp.get ⟨i, hi⟩).2.2.1).1,
           (SchwarzschildGeoCoordinateFrequencies G
              (inp.get ⟨i, hi⟩).2.1 (inp.get ⟨i, hi⟩).2.2.1).2)) := by
  have hget : (KerrGeoCoordinateFrequenciesVectorized G inp).get
        ⟨i, by simpa [KerrGeoCoordinateFrequenciesVectorized] using hi⟩
      = KerrGeoCoordinateFrequenciesVectorizedEntry G (inp.get ⟨i, hi⟩).1
          (inp.get ⟨i, hi⟩).2.1 (inp.get ⟨i, hi⟩).2.2.1 (inp.get ⟨i, hi⟩).2.2.2 := by
    simp [KerrGeoCoordinateFrequenciesVectorized, List.getElem_map]
  constructor
  · intro ha
    rw [hget]
    simp only [KerrGeoCoordinateFrequenciesVectorizedEntry, if_pos ha]
  · intro ha
    rw [hget]
    simp only [KerrGeoCoordinateFrequenciesVectorizedEntry,
      if_neg (not_not_intro ha)]

/-- C1 witness: on a one-element input with nonzero spin the vectorized
output at index 0 is the scalar output. -/
theorem C1_vectorized_scalar_witness :
    (0:ℕ) < ([((1:ℝ), (16:ℝ), (0:ℝ), (1:ℝ))] : List (ℝ × ℝ × ℝ × ℝ)).length
    ∧ (1:ℝ) ≠ 0
    ∧ (KerrGeoCoordinateFrequenciesVectorized Gc [(1, 16, 0, 1)]).get
          ⟨0, by norm_num [KerrGeoCoordinateFrequenciesVectorized]⟩
        = KerrGeoCoordinateFrequencies Gc 1 16 0 1 := by
  refine ⟨by norm_num, by norm_num, ?_⟩
  have h := (C1_vectorized_scalar Gc [(1, 16, 0, 1)] 0 (by norm_num)).1 (by norm_num)
  simpa using h

end Few

end
